import Mathlib

/-!
Shallow embedding of the PlanPhase problem tracker's lifecycle engine
(src/problems/models.py): the audit-diffing `Problem.save` hook, the
auto-timestamp rule, the derived-view properties (`expected_end`,
`active_state`) and the queryset filters (`active`, `overdue`).

Modelling conventions:
- timestamps (datetime) and durations (timedelta) are integers; `now()` is an
  explicit integer parameter, matching the injectable clock of the design;
- user references compare by primary key in Django, so they are `Option Nat`;
- `priority` is a numeric field compared with value equality, modelled as `Int`;
- `status` and `scale` are plain strings, as in the CharField columns, so
  values outside the enumerated choices are representable;
- Python truthiness is modelled explicitly where the source relies on it
  (`if self.created_at and self.etd`: a datetime is always truthy, while the
  zero timedelta is falsy).
-/

namespace PlanPhase

/-- Fields of a Problem row that the embedding gives per-field access to.
The first ten are the save hook's `track_fields`; the last three are audited
never, even when they change. -/
inductive Field where
  | title
  | description
  | status
  | priority
  | chief
  | executive
  | etd
  | scale
  | startedAt
  | closedAt
  | createdBy
  | updatedBy
  | createdAt
deriving DecidableEq, Repr

/-- Typed value of a single field, as compared by the diff loop with `!=`
(value equality, with `None` a distinct comparable value). -/
inductive FieldVal where
  | vStr : String → FieldVal
  | vOptStr : Option String → FieldVal
  | vNum : Int → FieldVal
  | vRef : Option Nat → FieldVal
  | vTime : Option Int → FieldVal
deriving DecidableEq, Repr

/-- State of one Problem row (the columns the lifecycle engine reads or
writes; `advisors`/`tags`/`parent` never enter the save hook's logic). -/
structure Problem where
  title : String
  description : Option String
  status : String
  priority : Int
  chief : Option Nat
  executive : Option Nat
  etd : Option Int
  scale : String
  started_at : Option Int
  closed_at : Option Int
  created_by : Option Nat
  updated_by : Option Nat
  created_at : Option Int
  pk : Option Nat
deriving DecidableEq, Repr

/-- Access a field by name, mirroring `getattr(obj, field)` in the save hook. -/
def Problem.getField (p : Problem) : Field → FieldVal
  | .title => .vStr p.title
  | .description => .vOptStr p.description
  | .status => .vStr p.status
  | .priority => .vNum p.priority
  | .chief => .vRef p.chief
  | .executive => .vRef p.executive
  | .etd => .vTime p.etd
  | .scale => .vStr p.scale
  | .startedAt => .vTime p.started_at
  | .closedAt => .vTime p.closed_at
  | .createdBy => .vRef p.created_by
  | .updatedBy => .vRef p.updated_by
  | .createdAt => .vTime p.created_at

/-- One audit record, as created by `ProblemHistory.objects.create(...)` inside
the save hook (the `problem` back-reference and `changed_at` carry no diffing
content and are omitted). -/
structure ProblemHistory where
  field : Field
  old_value : FieldVal
  new_value : FieldVal
  changed_by : Option Nat
deriving DecidableEq, Repr

/-- The save hook's `track_fields` list, in source order. -/
def trackFields : List Field :=
  [.title, .description, .status, .priority, .chief, .executive,
   .etd, .scale, .startedAt, .closedAt]

/-- The diff loop of `Problem.save`: for each tracked field, compare the
persisted row `old` with the in-memory instance `self` and create one history
record when they differ. -/
def diffHistory (old self : Problem) (user : Option Nat) : List ProblemHistory :=
  trackFields.filterMap (fun f =>
    if old.getField f ≠ self.getField f then
      some { field := f, old_value := old.getField f,
             new_value := self.getField f, changed_by := user }
    else none)

/-- Update path actor stamping: `if user: self.updated_by = user`. -/
def stampUpdatedBy (self : Problem) (user : Option Nat) : Problem :=
  match user with
  | some u => { self with updated_by := some u }
  | none => self

/-- Create path actor stamping: `if user: self.created_by = user;
self.updated_by = user`. -/
def stampCreatedBy (self : Problem) (user : Option Nat) : Problem :=
  match user with
  | some u => { self with created_by := some u, updated_by := some u }
  | none => self

/-- The auto-timestamp rule of `Problem.save`, run just before the final
write: set `started_at` when status is engaged and it is unset, then set
`closed_at` when status is terminal and it is unset. -/
def autoTimestamps (p : Problem) (now : Int) : Problem :=
  let p1 := if p.status = "engaged" ∧ p.started_at = none then
    { p with started_at := some now } else p
  if p1.status ∈ (["done", "cancelled"] : List String) ∧ p1.closed_at = none then
    { p1 with closed_at := some now } else p1

/-- Result of one save: the finalized row state and the history records the
hook emitted during it. -/
structure SaveResult where
  state : Problem
  history : List ProblemHistory
deriving DecidableEq, Repr

/-- The update branch of `Problem.save` (`self.pk` set and `old` located):
diff against the persisted snapshot first, then stamp `updated_by`, then apply
the auto-timestamp rule, then persist. -/
def applyUpdate (old self : Problem) (user : Option Nat) (now : Int) : SaveResult :=
  let history := diffHistory old self user
  let stamped := stampUpdatedBy self user
  { state := autoTimestamps stamped now, history := history }

/-- The create branch of `Problem.save` (`self.pk` unset): stamp
`created_by`/`updated_by`, apply the auto-timestamp rule; the insert fills
`created_at = now` (`auto_now_add`). No history records are produced. -/
def applyCreate (self : Problem) (user : Option Nat) (now : Int) : Problem :=
  let stamped := stampCreatedBy self user
  { autoTimestamps stamped now with created_at := some now }

/-- Failure conditions of a save: `Problem.objects.get(pk=self.pk)` raising
`DoesNotExist` surfaces as the spec's NotFound. -/
inductive SaveError where
  | notFound
deriving DecidableEq, Repr

/-- Entry point of the save hook: with a primary key it is an update and the
persisted snapshot is fetched from the store (failing with NotFound when the
row is gone, before any history is created); without one it is a create. -/
def Problem.save (db : Nat → Option Problem) (self : Problem) (user : Option Nat)
    (now : Int) : Except SaveError SaveResult :=
  match self.pk with
  | some k =>
    match db k with
    | some old => .ok (applyUpdate old self user now)
    | none => .error .notFound
  | none => .ok { state := applyCreate self user now, history := [] }

/-- `ProblemQuerySet.active`: `filter(status__in=["engaged", "blocked"])`. -/
def ProblemQuerySet.active (qs : List Problem) : List Problem :=
  qs.filter (fun p => decide (p.status ∈ (["engaged", "blocked"] : List String)))

/-- `ProblemQuerySet.overdue`: filter on `etd` and `started_at` non-null and
status in new/engaged/blocked, annotate `deadline = started_at + etd`, then
filter `deadline < now()`. -/
def ProblemQuerySet.overdue (qs : List Problem) (now : Int) : List Problem :=
  (qs.filter (fun p => p.etd.isSome && p.started_at.isSome &&
      decide (p.status ∈ (["new", "engaged", "blocked"] : List String)))).filter
    (fun p =>
      match p.started_at, p.etd with
      | some s, some d => decide (s + d < now)
      | _, _ => false)

/-- `Problem.expected_end`: `if self.created_at and self.etd: return
self.created_at + self.etd` — Python truthiness: a datetime is always truthy,
but the zero timedelta is falsy, so a present zero `etd` takes the `None`
branch. -/
def Problem.expected_end (p : Problem) : Option Int :=
  match p.created_at, p.etd with
  | some c, some d => if d ≠ 0 then some (c + d) else none
  | _, _ => none

/-- `Problem.active_state`: new / active / inactive classification. -/
def Problem.active_state (p : Problem) : String :=
  if p.status = "new" then "new"
  else if p.status ∈ (["engaged", "blocked"] : List String) then "active"
  else "inactive"

/-- A baseline row used by the concrete counterexamples and witnesses. -/
def baseProblem : Problem :=
  { title := "t", description := none, status := "new", priority := 0,
    chief := none, executive := none, etd := none, scale := "task",
    started_at := none, closed_at := none,
    created_by := none, updated_by := none, created_at := some 0, pk := some 1 }

/-- The base row moved to status engaged by the caller, `started_at` untouched. -/
def engagedSelf : Problem := { baseProblem with status := "engaged" }

/-- The base row moved to the terminal status done by the caller, `closed_at`
untouched. -/
def doneSelf : Problem := { baseProblem with status := "done" }

/-- A persisted snapshot whose `started_at` is already set. -/
def startedOld : Problem := { baseProblem with started_at := some 5 }

/-- A persisted snapshot with both lifecycle timestamps set. -/
def closedOld : Problem := { baseProblem with started_at := some 5, closed_at := some 7 }

/-- An update of `closedOld` that changes only the status, carrying both
timestamps over unchanged. -/
def closedSelf : Problem := { closedOld with status := "done" }

lemma stampUpdatedBy_none (self : Problem) : stampUpdatedBy self none = self := rfl

lemma stampUpdatedBy_status (self : Problem) (u : Option Nat) :
    (stampUpdatedBy self u).status = self.status := by
  cases u <;> rfl

lemma stampUpdatedBy_started_at (self : Problem) (u : Option Nat) :
    (stampUpdatedBy self u).started_at = self.started_at := by
  cases u <;> rfl

lemma stampUpdatedBy_closed_at (self : Problem) (u : Option Nat) :
    (stampUpdatedBy self u).closed_at = self.closed_at := by
  cases u <;> rfl

lemma stampCreatedBy_none (self : Problem) : stampCreatedBy self none = self := rfl

lemma stampCreatedBy_status (self : Problem) (u : Option Nat) :
    (stampCreatedBy self u).status = self.status := by
  cases u <;> rfl

lemma stampCreatedBy_started_at (self : Problem) (u : Option Nat) :
    (stampCreatedBy self u).started_at = self.started_at := by
  cases u <;> rfl

lemma stampCreatedBy_closed_at (self : Problem) (u : Option Nat) :
    (stampCreatedBy self u).closed_at = self.closed_at := by
  cases u <;> rfl

lemma autoTimestamps_started_at (p : Problem) (n : Int) :
    (autoTimestamps p n).started_at =
      if p.status = "engaged" ∧ p.started_at = none then some n else p.started_at := by
  unfold autoTimestamps
  by_cases h1 : p.status = "engaged" ∧ p.started_at = none <;>
    by_cases h2 : (p.status = "done" ∨ p.status = "cancelled") ∧ p.closed_at = none <;>
    simp [h1, h2]

lemma autoTimestamps_closed_at (p : Problem) (n : Int) :
    (autoTimestamps p n).closed_at =
      if (p.status = "done" ∨ p.status = "cancelled") ∧ p.closed_at = none
      then some n else p.closed_at := by
  unfold autoTimestamps
  by_cases h1 : p.status = "engaged" ∧ p.started_at = none <;>
    by_cases h2 : (p.status = "done" ∨ p.status = "cancelled") ∧ p.closed_at = none <;>
    simp [h1, h2]

lemma autoTimestamps_created_by (p : Problem) (n : Int) :
    (autoTimestamps p n).created_by = p.created_by := by
  unfold autoTimestamps
  by_cases h1 : p.status = "engaged" ∧ p.started_at = none <;>
    by_cases h2 : (p.status = "done" ∨ p.status = "cancelled") ∧ p.closed_at = none <;>
    simp [h1, h2]

lemma autoTimestamps_updated_by (p : Problem) (n : Int) :
    (autoTimestamps p n).updated_by = p.updated_by := by
  unfold autoTimestamps
  by_cases h1 : p.status = "engaged" ∧ p.started_at = none <;>
    by_cases h2 : (p.status = "done" ∨ p.status = "cancelled") ∧ p.closed_at = none <;>
    simp [h1, h2]

lemma filterMap_diff_eq (old self : Problem) (u : Option Nat) (l : List Field) :
    l.filterMap (fun f =>
      if old.getField f ≠ self.getField f then
        some ({ field := f, old_value := old.getField f,
                new_value := self.getField f, changed_by := u } : ProblemHistory)
      else none)
    = (l.filter (fun f => old.getField f != self.getField f)).map
        (fun f => { field := f, old_value := old.getField f,
                    new_value := self.getField f, changed_by := u }) := by
  induction l with
  | nil => rfl
  | cons a as ih =>
    rw [List.filterMap_cons, List.filter_cons]
    by_cases h : old.getField a = self.getField a
    · simp [h]
      simpa using ih
    · simp [h]
      simpa using ih

lemma diffHistory_eq (old self : Problem) (u : Option Nat) :
    diffHistory old self u
    = (trackFields.filter (fun f => old.getField f != self.getField f)).map
        (fun f => { field := f, old_value := old.getField f,
                    new_value := self.getField f, changed_by := u }) :=
  filterMap_diff_eq old self u trackFields

lemma diffHistory_self (st : Problem) (u : Option Nat) : diffHistory st st u = [] := by
  have h : trackFields.filter (fun f => st.getField f != st.getField f) = [] :=
    List.filter_eq_nil_iff.mpr (fun a _ => by simp [bne_self_eq_false'])
  rw [diffHistory_eq, h]
  rfl

lemma diffHistory_map_field (old self : Problem) (u : Option Nat) :
    (diffHistory old self u).map (fun r => r.field)
      = trackFields.filter (fun f => old.getField f != self.getField f) := by
  rw [diffHistory_eq, List.map_map]
  exact List.map_id'' (fun x => rfl) _

lemma field_not_in_diff_of_eq (old self : Problem) (u : Option Nat) (f : Field)
    (h : old.getField f = self.getField f) :
    f ∉ (diffHistory old self u).map (fun r => r.field) := by
  rw [diffHistory_map_field]
  intro hmem
  rw [List.mem_filter] at hmem
  rw [h] at hmem
  simp at hmem

lemma countP_beq_filter (q : Field → Bool) (f : Field) :
    ∀ l : List Field, l.Nodup →
      ((l.filter q).countP (fun g => g == f)) = if f ∈ l ∧ q f = true then 1 else 0 := by
  intro l
  induction l with
  | nil => simp
  | cons a as ih =>
    intro hnd
    rw [List.nodup_cons] at hnd
    rw [List.filter_cons]
    by_cases haf : a = f
    · subst haf
      by_cases hqa : q a
      · rw [if_pos hqa, List.countP_cons_of_pos _ _ (by simp)]
        rw [ih hnd.2]
        simp [hnd.1, hqa]
      · rw [if_neg hqa, ih hnd.2]
        simp [hnd.1, hqa]
    · by_cases hqa : q a
      · rw [if_pos hqa, List.countP_cons_of_neg _ _ (by simp [haf])]
        rw [ih hnd.2]
        simp [Ne.symm haf]
      · rw [if_neg hqa, ih hnd.2]
        simp [Ne.symm haf]

lemma trackFields_nodup : trackFields.Nodup := by decide

lemma diffHistory_countP (old self : Problem) (u : Option Nat) (f : Field) :
    (diffHistory old self u).countP (fun r => r.field == f)
      = if f ∈ trackFields ∧ old.getField f ≠ self.getField f then 1 else 0 := by
  rw [diffHistory_eq, List.countP_map]
  have hc := countP_beq_filter (fun g => old.getField g != self.getField g) f
    trackFields trackFields_nodup
  show (trackFields.filter (fun g => old.getField g != self.getField g)).countP
      (fun g => g == f) = _
  rw [hc]
  by_cases hd : old.getField f = self.getField f
  · simp [hd]
  · simp [hd]

/-- Claim C2: for every update, the emitted history has exactly one record per
tracked field whose old/new values differ under value equality, no record for
a tracked field whose values are equal, no record for any field outside the
tracked set, the records appearing in `track_fields` order and carrying the
old value, the new value and the acting user. -/
theorem update_history_exact_diff (old self : Problem) (u : Option Nat) (n : Int) :
    ((applyUpdate old self u n).history.map (fun r => r.field)
        = trackFields.filter (fun f => old.getField f != self.getField f))
    ∧ (∀ f : Field, (applyUpdate old self u n).history.countP (fun r => r.field == f)
        = if f ∈ trackFields ∧ old.getField f ≠ self.getField f then 1 else 0)
    ∧ ((applyUpdate old self u n).history.all (fun r =>
        r.old_value == old.getField r.field && r.new_value == self.getField r.field
          && r.changed_by == u) = true) := by
  refine ⟨?_, ?_, ?_⟩
  · exact diffHistory_map_field old self u
  · intro f
    exact diffHistory_countP old self u f
  · show (diffHistory old self u).all _ = true
    rw [diffHistory_eq, List.all_eq_true]
    intro r hr
    rw [List.mem_map] at hr
    obtain ⟨f, hf, rfl⟩ := hr
    simp

/-- Claim C3: the auto-timestamp rule, run identically by the update and the
create paths on the state about to be persisted, sets `started_at = now`
exactly when status is engaged with `started_at` unset, sets `closed_at = now`
exactly when status is done or cancelled with `closed_at` unset, and otherwise
leaves both fields untouched — a field already set is never cleared or
overwritten, whatever the status. -/
theorem auto_timestamp_rule_spec (p old self : Problem) (u : Option Nat) (n : Int) :
    ((autoTimestamps p n).started_at
        = if p.status = "engaged" ∧ p.started_at = none then some n else p.started_at)
    ∧ ((autoTimestamps p n).closed_at
        = if (p.status = "done" ∨ p.status = "cancelled") ∧ p.closed_at = none
          then some n else p.closed_at)
    ∧ ((applyUpdate old self u n).state.started_at
        = if self.status = "engaged" ∧ self.started_at = none
          then some n else self.started_at)
    ∧ ((applyUpdate old self u n).state.closed_at
        = if (self.status = "done" ∨ self.status = "cancelled") ∧ self.closed_at = none
          then some n else self.closed_at)
    ∧ ((applyCreate self u n).started_at
        = if self.status = "engaged" ∧ self.started_at = none
          then some n else self.started_at)
    ∧ ((applyCreate self u n).closed_at
        = if (self.status = "done" ∨ self.status = "cancelled") ∧ self.closed_at = none
          then some n else self.closed_at) := by
  refine ⟨autoTimestamps_started_at p n, autoTimestamps_closed_at p n, ?_, ?_, ?_, ?_⟩
  · show (autoTimestamps (stampUpdatedBy self u) n).started_at = _
    rw [autoTimestamps_started_at, stampUpdatedBy_status, stampUpdatedBy_started_at]
  · show (autoTimestamps (stampUpdatedBy self u) n).closed_at = _
    rw [autoTimestamps_closed_at, stampUpdatedBy_status, stampUpdatedBy_closed_at]
  · show (autoTimestamps (stampCreatedBy self u) n).started_at = _
    rw [autoTimestamps_started_at, stampCreatedBy_status, stampCreatedBy_started_at]
  · show (autoTimestamps (stampCreatedBy self u) n).closed_at = _
    rw [autoTimestamps_closed_at, stampCreatedBy_status, stampCreatedBy_closed_at]

/-- Claim C7: running the save hook a second time with a new_state identical
to the snapshot the first run persisted (every tracked field equal, including
any timestamps the first run's auto-timestamp rule set) emits zero history
records on the second run. -/
theorem second_identical_update_no_history (old self : Problem) (u1 u2 : Option Nat)
    (n1 n2 : Int) :
    (applyUpdate (applyUpdate old self u1 n1).state (applyUpdate old self u1 n1).state
      u2 n2).history = [] :=
  diffHistory_self _ _

/-- Claim C9: with the actor absent, neither the update path nor the create
path touches `created_by`/`updated_by`: both keep exactly the input state's
values (so an actorless create leaves them null when they were null). -/
theorem absent_actor_preserves_attribution (old self : Problem) (n : Int) :
    ((applyUpdate old self none n).state.created_by = self.created_by)
    ∧ ((applyUpdate old self none n).state.updated_by = self.updated_by)
    ∧ ((applyCreate self none n).created_by = self.created_by)
    ∧ ((applyCreate self none n).updated_by = self.updated_by) := by
  refine ⟨?_, ?_, ?_, ?_⟩
  · show (autoTimestamps (stampUpdatedBy self none) n).created_by = _
    rw [stampUpdatedBy_none, autoTimestamps_created_by]
  · show (autoTimestamps (stampUpdatedBy self none) n).updated_by = _
    rw [stampUpdatedBy_none, autoTimestamps_updated_by]
  · show (autoTimestamps (stampCreatedBy self none) n).created_by = _
    rw [stampCreatedBy_none, autoTimestamps_created_by]
  · show (autoTimestamps (stampCreatedBy self none) n).updated_by = _
    rw [stampCreatedBy_none, autoTimestamps_updated_by]

/-- Claim C1 counterexample: updating the base row from status new to engaged
with `started_at` null makes the auto-timestamp rule fire — the persisted
state gets `started_at = 100` — yet the history emitted by that same update
holds only the `status` record and no `started_at` record. -/
theorem auto_timestamp_not_in_history_cex :
    ((applyUpdate baseProblem engagedSelf none 100).state.started_at = some 100)
    ∧ ((applyUpdate baseProblem engagedSelf none 100).history.map (fun r => r.field)
        = [Field.status])
    ∧ (Field.startedAt ∉
        (applyUpdate baseProblem engagedSelf none 100).history.map (fun r => r.field)) := by
  decide

/-- Claim C1 amended: the save hook computes the per-field diff before the
auto-timestamp rule runs, so whenever the rule fires on an update its change
does NOT appear in the history emitted by that same update. Both halves of the
rule behave this way: an update to status engaged with `started_at` unset in
the snapshot and the new state persists `started_at = now` yet emits no
`started_at` record, and an update to a terminal status (done or cancelled)
with `closed_at` unset in the snapshot and the new state persists
`closed_at = now` yet emits no `closed_at` record; only the fields the caller
changed (such as `status`) are audited. -/
theorem auto_timestamp_fires_after_diff (old self : Problem) (u : Option Nat) (n : Int) :
    (old.started_at = none → self.started_at = none → self.status = "engaged" →
      ((applyUpdate old self u n).state.started_at = some n
        ∧ Field.startedAt ∉ (applyUpdate old self u n).history.map (fun r => r.field)))
    ∧ (old.closed_at = none → self.closed_at = none →
        (self.status = "done" ∨ self.status = "cancelled") →
      ((applyUpdate old self u n).state.closed_at = some n
        ∧ Field.closedAt ∉ (applyUpdate old self u n).history.map (fun r => r.field))) := by
  constructor
  · intro h1 h2 h3
    constructor
    · show (autoTimestamps (stampUpdatedBy self u) n).started_at = _
      rw [autoTimestamps_started_at, stampUpdatedBy_status, stampUpdatedBy_started_at]
      rw [if_pos ⟨h3, h2⟩]
    · exact field_not_in_diff_of_eq old self u Field.startedAt
        (by show FieldVal.vTime old.started_at = FieldVal.vTime self.started_at
            rw [h1, h2])
  · intro h1 h2 h3
    constructor
    · show (autoTimestamps (stampUpdatedBy self u) n).closed_at = _
      rw [autoTimestamps_closed_at, stampUpdatedBy_status, stampUpdatedBy_closed_at]
      rw [if_pos ⟨h3, h2⟩]
    · exact field_not_in_diff_of_eq old self u Field.closedAt
        (by show FieldVal.vTime old.closed_at = FieldVal.vTime self.closed_at
            rw [h1, h2])

theorem auto_timestamp_fires_after_diff_witness :
    (((applyUpdate baseProblem engagedSelf none 100).state.started_at = some 100)
      ∧ (Field.startedAt ∉
          (applyUpdate baseProblem engagedSelf none 100).history.map (fun r => r.field)))
    ∧ (((applyUpdate baseProblem doneSelf none 100).state.closed_at = some 100)
      ∧ (Field.closedAt ∉
          (applyUpdate baseProblem doneSelf none 100).history.map (fun r => r.field))) :=
  ⟨(auto_timestamp_fires_after_diff baseProblem engagedSelf none 100).1 rfl rfl rfl,
   (auto_timestamp_fires_after_diff baseProblem doneSelf none 100).2 rfl rfl (Or.inl rfl)⟩

/-- Claim C4 counterexample: an update whose new state carries `started_at =
none` while the persisted snapshot holds `started_at = some 5` persists the
cleared value — the once-non-null timestamp did not survive a subsequent
update, because nothing in the save hook restores or protects it. -/
theorem timestamp_overwrite_cex :
    startedOld.started_at = some 5
    ∧ ((applyUpdate startedOld baseProblem none 100).state.started_at = none) := by
  decide

/-- Claim C4 amended: provided an update's new state carries over the
snapshot's `started_at` and `closed_at` (they are system-derived fields, not
set by a caller's intent), a non-null value of either field is preserved
exactly by the update — the auto-timestamp rule never clears or moves a set
timestamp. The unrestricted claim fails because the save hook persists
whatever `started_at`/`closed_at` the new state carries. -/
theorem timestamps_preserved_when_not_overwritten (old self : Problem) (u : Option Nat)
    (n : Int) (hs : self.started_at = old.started_at)
    (hc : self.closed_at = old.closed_at) :
    (∀ t : Int, old.started_at = some t →
      (applyUpdate old self u n).state.started_at = some t)
    ∧ (∀ t : Int, old.closed_at = some t →
      (applyUpdate old self u n).state.closed_at = some t) := by
  constructor
  · intro t ht
    show (autoTimestamps (stampUpdatedBy self u) n).started_at = _
    rw [autoTimestamps_started_at, stampUpdatedBy_status, stampUpdatedBy_started_at]
    rw [hs, ht]
    simp
  · intro t ht
    show (autoTimestamps (stampUpdatedBy self u) n).closed_at = _
    rw [autoTimestamps_closed_at, stampUpdatedBy_status, stampUpdatedBy_closed_at]
    rw [hc, ht]
    simp

theorem timestamps_preserved_witness :
    closedSelf.started_at = closedOld.started_at
    ∧ closedSelf.closed_at = closedOld.closed_at
    ∧ ((∀ t : Int, closedOld.started_at = some t →
          (applyUpdate closedOld closedSelf none 100).state.started_at = some t)
      ∧ (∀ t : Int, closedOld.closed_at = some t →
          (applyUpdate closedOld closedSelf none 100).state.closed_at = some t)) :=
  ⟨rfl, rfl, timestamps_preserved_when_not_overwritten closedOld closedSelf none 100 rfl rfl⟩

/-- Claim C5: membership in the overdue queryset holds exactly when `etd` and
`started_at` are both present, the status is new, engaged or blocked, and
`started_at + etd < now`; moreover every row the filter returns has
`started_at` present, so a problem with null `started_at` is never overdue,
whatever its `etd`. -/
theorem overdue_iff (qs : List Problem) (n : Int) (p : Problem) :
    (p ∈ ProblemQuerySet.overdue qs n ↔
      p ∈ qs ∧ ∃ d s, p.etd = some d ∧ p.started_at = some s ∧
        (p.status = "new" ∨ p.status = "engaged" ∨ p.status = "blocked") ∧ s + d < n)
    ∧ ((ProblemQuerySet.overdue qs n).all (fun q => q.started_at.isSome) = true) := by
  constructor
  · rw [ProblemQuerySet.overdue, List.mem_filter, List.mem_filter]
    cases he : p.etd with
    | none => simp [he]
    | some d =>
      cases hs : p.started_at with
      | none => simp [he, hs]
      | some s =>
        simp [he, hs, and_assoc]
  · rw [List.all_eq_true]
    intro q hq
    rw [ProblemQuerySet.overdue, List.mem_filter, List.mem_filter] at hq
    obtain ⟨⟨hmem, h1⟩, h2⟩ := hq
    simp only [Bool.and_eq_true] at h1
    exact h1.1.2

/-- Claim C6 counterexample: a row with `created_at` and `etd` both present
but `etd` the zero duration has no `expected_end`: the source's `if
self.created_at and self.etd` treats `timedelta(0)` as falsy, so the claimed
`created_at + etd` (= `created_at`) is not returned. -/
theorem expected_end_zero_etd_cex :
    ({ baseProblem with created_at := some 10, etd := some 0 } : Problem).created_at = some 10
    ∧ ({ baseProblem with created_at := some 10, etd := some 0 } : Problem).etd = some 0
    ∧ ({ baseProblem with created_at := some 10, etd := some 0 } : Problem).expected_end = none
    ∧ ({ baseProblem with created_at := some 10, etd := some 0 } : Problem).expected_end
        ≠ some (10 + 0) := by
  decide

/-- Claim C6 amended: `expected_end` equals `created_at + etd` whenever
`created_at` is present and `etd` is present and nonzero; it is absent when
`created_at` is absent, `etd` is absent, or `etd` is the zero duration (which
Python truthiness treats as absent). -/
theorem expected_end_spec (p : Problem) :
    (∀ x : Int, p.expected_end = some x ↔
      ∃ c d, p.created_at = some c ∧ p.etd = some d ∧ d ≠ 0 ∧ x = c + d)
    ∧ (p.expected_end = none ↔
        (p.created_at = none ∨ p.etd = none ∨ p.etd = some 0)) := by
  constructor
  · intro x
    cases hc : p.created_at with
    | none => simp [Problem.expected_end, hc]
    | some c =>
      cases hd : p.etd with
      | none => simp [Problem.expected_end, hc, hd]
      | some d =>
        by_cases hz : d = 0
        · simp [Problem.expected_end, hc, hd, hz]
        · simp [Problem.expected_end, hc, hd, hz, eq_comm]
  · cases hc : p.created_at with
    | none => simp [Problem.expected_end, hc]
    | some c =>
      cases hd : p.etd with
      | none => simp [Problem.expected_end, hc, hd]
      | some d =>
        by_cases hz : d = 0
        · simp [Problem.expected_end, hc, hd, hz]
        · simp [Problem.expected_end, hc, hd, hz]

/-- Claim C8: an update whose primary key has no persisted row (deleted or
never existed) fails with the NotFound condition before the diff loop runs,
so no save result and no history records are produced at all. -/
theorem update_missing_snapshot_notFound (db : Nat → Option Problem) (self : Problem)
    (u : Option Nat) (n : Int) (k : Nat) (h1 : self.pk = some k) (h2 : db k = none) :
    Problem.save db self u n = .error .notFound := by
  unfold Problem.save
  rw [h1]
  show (match db k with
    | some old => Except.ok (applyUpdate old self u n)
    | none => Except.error SaveError.notFound) = _
  rw [h2]

theorem update_missing_snapshot_notFound_witness :
    baseProblem.pk = some 1 ∧ (fun _ : Nat => (none : Option Problem)) 1 = none
    ∧ Problem.save (fun _ => none) baseProblem none 0 = .error .notFound :=
  ⟨rfl, rfl,
    update_missing_snapshot_notFound (fun _ => none) baseProblem none 0 1 rfl rfl⟩

/-- Claim C10: membership in the `active` queryset filter (status engaged or
blocked) coincides exactly with the per-entity classification `active_state =
"active"`; any other status string — `new` classified "new", and every value
outside the five enumerated choices as well as done/cancelled classified
"inactive". -/
theorem active_filter_matches_active_state (qs : List Problem) (p : Problem) :
    (p ∈ ProblemQuerySet.active qs ↔ p ∈ qs ∧ p.active_state = "active")
    ∧ (p.active_state = "active" ↔ (p.status = "engaged" ∨ p.status = "blocked"))
    ∧ (p.active_state = "new" ↔ p.status = "new")
    ∧ (p.active_state = "inactive" ↔
        (p.status ≠ "new" ∧ p.status ≠ "engaged" ∧ p.status ≠ "blocked")) := by
  have hactive : p.active_state = "active" ↔ (p.status = "engaged" ∨ p.status = "blocked") := by
    unfold Problem.active_state
    by_cases h1 : p.status = "new"
    · simp [h1]
    · by_cases h2 : p.status = "engaged" ∨ p.status = "blocked"
      · simp [h1, h2]
      · simp [h1, h2]
  refine ⟨?_, hactive, ?_, ?_⟩
  · rw [ProblemQuerySet.active, List.mem_filter, hactive]
    simp
  · unfold Problem.active_state
    by_cases h1 : p.status = "new"
    · simp [h1]
    · by_cases h2 : p.status = "engaged" ∨ p.status = "blocked"
      · simp [h1, h2]
      · simp [h1, h2]
  · unfold Problem.active_state
    by_cases h1 : p.status = "new"
    · simp [h1]
    · by_cases h2 : p.status = "engaged" ∨ p.status = "blocked"
      · rcases h2 with he | hb
        · simp [he]
        · simp [hb]
      · obtain ⟨h2a, h2b⟩ := not_or.mp h2
        simp [h1, h2a, h2b]

end PlanPhase
